import Mathlib

/-!
Verification of the batch document retrieval and conversion pipeline of
`src/dbSNP.py`: the tools `get_full_text_markdown` (lines 261-373) and
`get_articles` (lines 164-259).

The embedding is shallow.  External services (Unpaywall, the PDF download
transport, `pymupdf4llm.to_markdown`, `convert.doi2pmid`,
`pubmed_fetch.article_by_pmid`, `FindIt`) are an environment of functions
returning `Except PyError _`, mirroring the Python calls that can raise.
The filesystem of the per-batch temporary directory is an association list
from path to content.  The Python local variable `filename`, which is
assigned inside the per-item loop and read by the `finally` block, is
threaded explicitly as an `Option String`, so that the `UnboundLocalError`
the code can raise on a first-iteration failure is modelled faithfully.
Every external call made by an item is recorded in a trace.
-/

/-- The Python exceptions that the pipeline distinguishes: `httpx.HTTPError`
(matched by the dedicated `except` clause at line 340), `ValueError` (raised
by the validation checks), any other exception, and the `UnboundLocalError`
produced by reading a local variable before assignment. -/
inductive PyError where
  | httpError (msg : String)
  | valueError (msg : String)
  | otherError (msg : String)
  | unboundLocal (var : String)
deriving DecidableEq

/-- `str(e)` for a modelled exception.  For `UnboundLocalError` the CPython
message text is used (apostrophes around the variable name elided). -/
def errMsg : PyError → String
  | .httpError m => m
  | .valueError m => m
  | .otherError m => m
  | .unboundLocal v => "cannot access local variable " ++ v ++ " where it is not associated with a value"

/-- Whether an exception is caught by `except httpx.HTTPError` (line 340). -/
def isHTTPError : PyError → Bool
  | .httpError _ => true
  | _ => false

/-- Python truthiness of an optional string: `None` and the empty string are
falsy, any other string is truthy. -/
def truthy : Option String → Bool
  | none => false
  | some s => s != ""

/-- Models `str.lower()` (ASCII case folding, which is what content-type
strings exercise). -/
def lowerStr (s : String) : String := String.mk (s.data.map Char.toLower)

/-- `pat` is a prefix of `l` (character lists). -/
def leadsWith : List Char → List Char → Bool
  | [], _ => true
  | _ :: _, [] => false
  | a :: as, b :: bs => a == b && leadsWith as bs

/-- `pat` occurs as a contiguous sublist of `l`. -/
def occursAux (pat : List Char) : List Char → Bool
  | [] => pat.isEmpty
  | c :: cs => leadsWith pat (c :: cs) || occursAux pat cs

/-- Models the Python substring test `pat in s`. -/
def occursIn (s pat : String) : Bool := occursAux pat.data s.data

/-- Models Python `sep.join(l)`. -/
def joinSep (sep : String) : List String → String
  | [] => ""
  | x :: xs => xs.foldl (fun acc s => acc ++ sep ++ s) x

/-- The fixed fragment separator used by both batch tools
(lines 259 and 373). -/
def SEPARATOR : String := "\n\n==========\n\n"

/-- The files currently present in the per-batch temporary directory:
an association list from path to content. -/
abbrev FS := List (String × String)

/-- Writing a file (`aiofiles.open(filename, "wb")` truncates). -/
def fsWrite (fs : FS) (path content : String) : FS :=
  (path, content) :: fs.filter (fun p => p.1 != path)

/-- `os.remove`, preceded in the code by an `os.path.exists` guard; removing
an absent path is therefore a no-op. -/
def fsRemove (fs : FS) (path : String) : FS :=
  fs.filter (fun p => p.1 != path)

/-- `os.path.exists`. -/
def fsHas (fs : FS) (path : String) : Bool :=
  fs.any (fun p => p.1 == path)

/-- Models `doi.replace("/", "_")` (line 315); the pattern is the single
character `/`, so a character-wise map is exact. -/
def pyReplaceSlash (s : String) : String :=
  String.mk (s.data.map (fun c => if c == '/' then '_' else c))

/-- The per-item file path computed at line 315: the temporary directory
joined with the slash-sanitised DOI plus the `.pdf` suffix. -/
def itemFile (temp_dir doi : String) : String :=
  temp_dir ++ "/" ++ pyReplaceSlash doi ++ ".pdf"

/-- One external call made while processing an item. -/
inductive Call where
  | unpaywall (doi : String)
  | download (url : String)
  | convert (content : String)
  | doi2pmid (doi : String)
  | fetchArticle (pmid : String)
  | findit (pmid : String)
deriving DecidableEq

/-- One candidate open-access location of an Unpaywall response
(`oa_locations` entries, lines 298-310).  `none` models an absent or null
JSON field, which is exactly what `dict.get` turns into a falsy value. -/
structure OALocation where
  url_for_pdf : Option String
  url : Option String
  host_type : Option String
deriving DecidableEq

/-- The parts of the Unpaywall JSON response the code reads:
`data.get("is_oa", False)` and `data.get("oa_locations", [])`
(lines 296-298). -/
structure UnpaywallData where
  is_oa : Bool
  oa_locations : List OALocation
deriving DecidableEq

/-- The parts of the download response the code reads: the declared
content type (`headers.get("content-type", "")`, line 322, with the default
already folded in) and the byte payload. -/
structure DownloadResponse where
  contentType : String
  content : String
deriving DecidableEq

/-- The external collaborators of `get_full_text_markdown`.
`unpaywall` models lines 289-292 (GET plus `raise_for_status` plus `.json()`),
`download` models lines 318-319 (GET with redirects plus `raise_for_status`),
`toMarkdown` models `pymupdf4llm.to_markdown` applied to the saved bytes. -/
structure FTEnv where
  unpaywall : String → Except PyError UnpaywallData
  download : String → Except PyError DownloadResponse
  toMarkdown : String → Except PyError String

/-- Lines 295-305: scan `oa_locations` for the first location with a truthy
`url_for_pdf`; if none and the collection is non-empty, fall back to the
first location; `None` when not open access or no candidates. -/
def best_oa_location (data : UnpaywallData) : Option OALocation :=
  if data.is_oa then
    match data.oa_locations.find? (fun l => truthy l.url_for_pdf) with
    | some l => some l
    | none => data.oa_locations.head?
  else none

/-- Line 310: `best_oa_location.get("url_for_pdf") or best_oa_location.get("url")`,
returning `none` when the result is falsy (which line 312 turns into a
`ValueError`). -/
def pdf_url_of (loc : OALocation) : Option String :=
  if truthy loc.url_for_pdf then loc.url_for_pdf
  else if truthy loc.url then loc.url
  else none

/-- `best_oa_location.get("host_type", "unknown")` (line 334). -/
def host_type_label (loc : OALocation) : String :=
  loc.host_type.getD "unknown"

/-- The mutable per-batch state the loop body touches: the binding of the
Python local `filename` (unassigned before the first item reaches line 315)
and the files in the temporary directory. -/
structure LoopSt where
  filenameVar : Option String
  fs : FS
deriving DecidableEq

/-- Outcome of the inner `try` body (lines 288-338): the exception it raised
if any, the lines it appended to `result_info`, the binding of `filename`,
the filesystem, and the trace of external calls. -/
structure InnerOut where
  err : Option PyError
  lines : List String
  filenameVar : Option String
  fs : FS
  trace : List Call
deriving DecidableEq

/-- The inner `try` body of one loop iteration (lines 288-338): query
Unpaywall, select an open-access location, compute `filename`, download,
validate the content type, save the payload, convert it to markdown. -/
def innerTry (env : FTEnv) (temp_dir doi : String) (st : LoopSt) : InnerOut :=
  match env.unpaywall doi with
  | .error e => ⟨some e, [], st.filenameVar, st.fs, [.unpaywall doi]⟩
  | .ok data =>
    match best_oa_location data with
    | none =>
      ⟨some (.valueError "No open access PDF available"), [],
       st.filenameVar, st.fs, [.unpaywall doi]⟩
    | some loc =>
      match pdf_url_of loc with
      | none =>
        ⟨some (.valueError "No PDF URL found in open access location"), [],
         st.filenameVar, st.fs, [.unpaywall doi]⟩
      | some pdf_url =>
        let filename := itemFile temp_dir doi
        match env.download pdf_url with
        | .error e =>
          ⟨some e, [], some filename, st.fs, [.unpaywall doi, .download pdf_url]⟩
        | .ok resp =>
          if occursIn (lowerStr resp.contentType) "pdf" then
            match env.toMarkdown resp.content with
            | .error e =>
              ⟨some e, [], some filename, fsWrite st.fs filename resp.content,
               [.unpaywall doi, .download pdf_url, .convert resp.content]⟩
            | .ok md =>
              ⟨none,
               ["Open Access Source: " ++ host_type_label loc, "", "Markdown Content:", md],
               some filename, fsWrite st.fs filename resp.content,
               [.unpaywall doi, .download pdf_url, .convert resp.content]⟩
          else
            ⟨some (.valueError ("Not a PDF file (content-type: " ++ resp.contentType ++ ")")),
             [], some filename, st.fs, [.unpaywall doi, .download pdf_url]⟩

/-- The two `except` clauses at lines 340-345: an `httpx.HTTPError` and any
other exception each append one error line to `result_info`. -/
def handledLines (err : Option PyError) (lines : List String) : List String :=
  match err with
  | none => lines
  | some e =>
    if isHTTPError e then ["Error: Failed to retrieve or download PDF - " ++ errMsg e]
    else ["Error: Failed to process PDF - " ++ errMsg e]

/-- The fragment and state an item contributes back to the batch loop. -/
structure ItemOut where
  fragment : String
  trace : List Call
  st : LoopSt
deriving DecidableEq

/-- The `finally` block (lines 346-349) plus the outer per-item handler
(lines 351-358) applied to the outcome of the inner `try`/`except`.  When
`filename` has never been assigned, the `finally` block raises
`UnboundLocalError`, which the outer handler catches, rebuilding
`result_info` from scratch; otherwise the item file is removed if present
and `result_info` is joined as-is (line 360). -/
def ftAssemble (doi : String) (r : InnerOut) : ItemOut :=
  match r.filenameVar with
  | none =>
    ⟨joinSep "\n" ["PDF Processing Results:", "DOI: " ++ doi,
       "Error: " ++ errMsg (.unboundLocal "filename")],
     r.trace, ⟨none, r.fs⟩⟩
  | some fn =>
    ⟨joinSep "\n" (["PDF Processing Results:", "DOI: " ++ doi] ++ handledLines r.err r.lines),
     r.trace, ⟨some fn, fsRemove r.fs fn⟩⟩

/-- One full iteration of the `for doi in dois` loop (lines 279-360). -/
def ftItem (env : FTEnv) (temp_dir doi : String) (st : LoopSt) : ItemOut :=
  ftAssemble doi (innerTry env temp_dir doi st)

/-- The batch loop: one fragment appended per identifier, state threaded
through (lines 279-360). -/
def ftLoop (env : FTEnv) (temp_dir : String) (st : LoopSt) :
    List String → List String × LoopSt
  | [] => ([], st)
  | doi :: rest =>
    let o := ftItem env temp_dir doi st
    let r := ftLoop env temp_dir o.st rest
    (o.fragment :: r.1, r.2)

/-- The fragments produced by a whole batch, starting from the initial state
(`filename` unassigned, empty temporary directory). -/
def ftFragments (env : FTEnv) (temp_dir : String) (dois : List String) : List String :=
  (ftLoop env temp_dir ⟨none, []⟩ dois).1

/-- The `os.rmdir(temp_dir)` attempt of the outer `finally` (lines 362-367):
it fails when the directory is not empty; the surrounding `except` logs and
swallows the failure. -/
def rmdirAttempt (fs : FS) : Except PyError Unit :=
  if fs.isEmpty then .ok () else .error (.otherError "Directory not empty")

/-- The report text: sentinel for an empty fragment list, otherwise the
fragments joined with the fixed separator (lines 369-373). -/
def ftReport (env : FTEnv) (temp_dir : String) (dois : List String) : String :=
  if (ftFragments env temp_dir dois).isEmpty then "No PDFs were processed successfully."
  else joinSep SEPARATOR (ftFragments env temp_dir dois)

/-- The tool `get_full_text_markdown` (lines 261-373).  The return type is
`Except PyError String` so that an exception escaping to the caller would be
visible; the per-item handlers and the guarded `rmdir` make the result
always `.ok`. -/
def get_full_text_markdown (env : FTEnv) (temp_dir : String) (dois : List String) :
    Except PyError String :=
  let r := ftLoop env temp_dir ⟨none, []⟩ dois
  let _cleanup := rmdirAttempt r.2.fs
  .ok (if r.1.isEmpty then "No PDFs were processed successfully."
       else joinSep SEPARATOR r.1)

/-- The parts of a `metapub` article record that `get_articles` reads
(lines 207-219). -/
structure Article where
  title : String
  authors : List String
  journal : String
  year : String
  citation : String
  abstract : Option String
deriving DecidableEq

/-- What `FindIt(pmid)` exposes: `finder.url` (possibly falsy) and
`finder.reason` (lines 233-239). -/
structure FindItResult where
  url : Option String
  reason : String
deriving DecidableEq

/-- The external collaborators of `get_articles`: `convert.doi2pmid`
(which can return a falsy value or raise), `pubmed_fetch.article_by_pmid`
(which can return nothing or raise), and the `FindIt` lookup. -/
structure ArtEnv where
  doi2pmid : String → Except PyError (Option String)
  article_by_pmid : String → Except PyError (Option Article)
  findit : String → Except PyError FindItResult

/-- `article.abstract if article.abstract else "Not available"`-style
Python truthiness fallback. -/
def pyOr (o : Option String) (d : String) : String :=
  if truthy o then o.getD "" else d

/-- One iteration of the `for doi in dois` loop of `get_articles`
(lines 180-253): resolution (lines 189-198), metadata (lines 201-224),
full-text lookup (lines 227-246).  Each stage failure is caught in place
and ends the item with one fragment; the per-item state is pure, so the
item is a function of the environment and the identifier alone.  The
outer catch-all at lines 250-253 is unreachable under this model because
every modelled failure is caught by an inner handler. -/
def gaItem (env : ArtEnv) (doi : String) : String × List Call :=
  match env.doi2pmid doi with
  | .error e =>
    (joinSep "\n" ["Article Information:", "DOI: " ++ doi,
       "Error: Could not retrieve PMID - " ++ errMsg e],
     [.doi2pmid doi])
  | .ok po =>
    if truthy po then
      match po with
      | none =>
        (joinSep "\n" ["Article Information:", "DOI: " ++ doi,
           "Error: Could not retrieve PMID - Could not convert DOI to PMID"],
         [.doi2pmid doi])
      | some pmid =>
        match env.article_by_pmid pmid with
        | .error e =>
          (joinSep "\n" ["Article Information:", "DOI: " ++ doi, "PMID: " ++ pmid,
             "Error: Could not retrieve article data - " ++ errMsg e],
           [.doi2pmid doi, .fetchArticle pmid])
        | .ok none =>
          (joinSep "\n" ["Article Information:", "DOI: " ++ doi, "PMID: " ++ pmid,
             "Error: Could not retrieve article data - No article data returned"],
           [.doi2pmid doi, .fetchArticle pmid])
        | .ok (some a) =>
          let info : List String :=
            ["Article Information:", "DOI: " ++ doi, "PMID: " ++ pmid,
             "Title: " ++ a.title,
             "Authors: " ++ joinSep "; " a.authors,
             "Journal: " ++ a.journal ++ " (" ++ a.year ++ ")",
             "Citation: " ++ a.citation,
             "", "Abstract:", pyOr a.abstract "Not available"]
          match env.findit pmid with
          | .error e =>
            (joinSep "\n" (info ++ ["", "Full Text Access:",
               "Error: Could not retrieve full text URL - " ++ errMsg e]),
             [.doi2pmid doi, .fetchArticle pmid, .findit pmid])
          | .ok fr =>
            let tailLines : List String :=
              if truthy fr.url then ["URL: " ++ fr.url.getD ""]
              else ["Full text URL not available", "Reason: " ++ fr.reason]
            (joinSep "\n" (info ++ ["", "Full Text Access:"] ++ tailLines),
             [.doi2pmid doi, .fetchArticle pmid, .findit pmid])
    else
      (joinSep "\n" ["Article Information:", "DOI: " ++ doi,
         "Error: Could not retrieve PMID - Could not convert DOI to PMID"],
       [.doi2pmid doi])

/-- The fragments produced by `get_articles`: one per identifier, in input
order (each iteration appends exactly once, lines 197, 223, 248, 253). -/
def gaFragments (env : ArtEnv) (dois : List String) : List String :=
  dois.map (fun d => (gaItem env d).1)

/-- The tool `get_articles` (lines 164-259): sentinel for an empty batch,
otherwise the fragments joined with the fixed separator. -/
def get_articles (env : ArtEnv) (dois : List String) : String :=
  let frags := gaFragments env dois
  if frags.isEmpty then "No articles were processed successfully."
  else joinSep SEPARATOR frags

/-- The header every fragment of `get_full_text_markdown` starts with. -/
def headerFT (doi : String) : String :=
  "PDF Processing Results:\nDOI: " ++ doi ++ "\n"

/-- The header every fragment of `get_articles` starts with. -/
def headerGA (doi : String) : String :=
  "Article Information:\nDOI: " ++ doi ++ "\n"

/-- Recognises a primary-finder call in a trace. -/
def isFinditCall : Call → Bool
  | .findit _ => true
  | _ => false

/-- Recognises an aggregator call in a trace. -/
def isUnpaywallCall : Call → Bool
  | .unpaywall _ => true
  | _ => false

/-- Recognises a conversion step in a trace. -/
def isConvertCall : Call → Bool
  | .convert _ => true
  | _ => false

/-- The URL of the first download call of a trace, if any. -/
def firstDownload : List Call → Option String
  | [] => none
  | .download u :: _ => some u
  | _ :: rest => firstDownload rest

/-- Spec-side definition (follows the words of the specification, for
comparison with the code): the selection policy of section 4.3 —
"prefer the first candidate exposing a direct PDF URL; if none expose a
PDF URL, fall back to the first candidate generic URL". -/
def spec_selected_url (data : UnpaywallData) : Option String :=
  match data.oa_locations.find? (fun l => truthy l.url_for_pdf) with
  | some l => l.url_for_pdf
  | none => data.oa_locations.head?.bind (fun l => if truthy l.url then l.url else none)

/-- Concrete environment: the Unpaywall request itself raises a transport
error for every identifier. -/
def envHttpFail : FTEnv :=
  ⟨fun _ => .error (.httpError "boom"),
   fun _ => .error (.httpError "nope"),
   fun _ => .ok "MD"⟩

/-- Concrete environment: the aggregator reports the record is not open
access (empty candidate collection). -/
def envNotOA : FTEnv :=
  ⟨fun _ => .ok ⟨false, []⟩,
   fun _ => .error (.httpError "nope"),
   fun _ => .ok "MD"⟩

/-- Concrete environment: two candidate locations, only the second exposing
a PDF URL; the download then fails, which keeps the trace short. -/
def envTwoLoc : FTEnv :=
  ⟨fun _ => .ok ⟨true, [⟨none, some "http://gen1", none⟩,
                        ⟨some "http://pdf2", some "http://gen2", none⟩]⟩,
   fun _ => .error (.httpError "neterr"),
   fun _ => .ok "MD"⟩

/-- Concrete environment: a successful download that declares `text/html`. -/
def envHtml : FTEnv :=
  ⟨fun _ => .ok ⟨true, [⟨some "http://pdf", some "http://gen", some "publisher"⟩]⟩,
   fun _ => .ok ⟨"text/html", "HTML"⟩,
   fun _ => .ok "MD"⟩

/-- Concrete environment: a fully successful item. -/
def envGood : FTEnv :=
  ⟨fun _ => .ok ⟨true, [⟨some "http://pdf", some "http://gen", some "publisher"⟩]⟩,
   fun _ => .ok ⟨"application/pdf", "BYTES"⟩,
   fun _ => .ok "MD"⟩

/-- Concrete article environment: resolution fails for every identifier. -/
def envResolveFail : ArtEnv :=
  ⟨fun _ => .error (.otherError "no pmid"),
   fun _ => .ok none,
   fun _ => .ok ⟨none, "r"⟩⟩

/-- Concrete article environment: resolution and metadata succeed, but the
primary full-text finder yields nothing. -/
def envArtNoUrl : ArtEnv :=
  ⟨fun _ => .ok (some "12345"),
   fun _ => .ok (some ⟨"T", ["A"], "J", "2020", "C", some "Abs"⟩),
   fun _ => .ok ⟨none, "paywalled"⟩⟩

theorem L_foldl_hoist (zs : List String) (x y : String) :
    zs.foldl (fun acc s => acc ++ "\n" ++ s) (x ++ y)
      = x ++ zs.foldl (fun acc s => acc ++ "\n" ++ s) y := by
  induction zs generalizing y with
  | nil => rfl
  | cons z zs ih =>
    show zs.foldl _ ((x ++ y) ++ "\n" ++ z) = _
    rw [String.append_assoc, String.append_assoc, ih (y ++ ("\n" ++ z))]
    show _ = x ++ zs.foldl _ ((y ++ "\n") ++ z)
    rw [String.append_assoc]

theorem L_joinSep_split (a b z : String) (zs : List String) :
    joinSep "\n" (a :: b :: z :: zs)
      = a ++ "\n" ++ b ++ "\n" ++ joinSep "\n" (z :: zs) :=
  L_foldl_hoist zs (a ++ "\n" ++ b ++ "\n") z

theorem L_ft_split (d z : String) (zs : List String) :
    joinSep "\n" ("PDF Processing Results:" :: ("DOI: " ++ d) :: z :: zs)
      = headerFT d ++ joinSep "\n" (z :: zs) := by
  rw [L_joinSep_split]
  simp only [headerFT, String.append_assoc]
  rfl

theorem L_ga_split (d z : String) (zs : List String) :
    joinSep "\n" ("Article Information:" :: ("DOI: " ++ d) :: z :: zs)
      = headerGA d ++ joinSep "\n" (z :: zs) := by
  rw [L_joinSep_split]
  simp only [headerGA, String.append_assoc]
  rfl

theorem L_success_lines (host md : String) :
    joinSep "\n" ["Open Access Source: " ++ host, "", "Markdown Content:", md]
      = "Open Access Source: " ++ host ++ "\n\nMarkdown Content:\n" ++ md := by
  show ("Open Access Source: " ++ host ++ "\n" ++ "" ++ "\n" ++ "Markdown Content:") ++ "\n" ++ md = _
  simp only [String.append_assoc]
  rfl

theorem innerTry_eq_apiErr (env : FTEnv) (t d : String) (st : LoopSt) (e : PyError)
    (hU : env.unpaywall d = .error e) :
    innerTry env t d st = ⟨some e, [], st.filenameVar, st.fs, [.unpaywall d]⟩ := by
  simp only [innerTry, hU]

theorem innerTry_eq_noBest (env : FTEnv) (t d : String) (st : LoopSt)
    (data : UnpaywallData) (hU : env.unpaywall d = .ok data)
    (hB : best_oa_location data = none) :
    innerTry env t d st
      = ⟨some (.valueError "No open access PDF available"), [],
         st.filenameVar, st.fs, [.unpaywall d]⟩ := by
  simp only [innerTry, hU, hB]

theorem innerTry_eq_noUrl (env : FTEnv) (t d : String) (st : LoopSt)
    (data : UnpaywallData) (loc : OALocation)
    (hU : env.unpaywall d = .ok data) (hB : best_oa_location data = some loc)
    (hP : pdf_url_of loc = none) :
    innerTry env t d st
      = ⟨some (.valueError "No PDF URL found in open access location"), [],
         st.filenameVar, st.fs, [.unpaywall d]⟩ := by
  simp only [innerTry, hU, hB, hP]

theorem innerTry_eq_dlErr (env : FTEnv) (t d : String) (st : LoopSt)
    (data : UnpaywallData) (loc : OALocation) (u : String) (e : PyError)
    (hU : env.unpaywall d = .ok data) (hB : best_oa_location data = some loc)
    (hP : pdf_url_of loc = some u) (hD : env.download u = .error e) :
    innerTry env t d st
      = ⟨some e, [], some (itemFile t d), st.fs, [.unpaywall d, .download u]⟩ := by
  simp only [innerTry, hU, hB, hP, hD]

theorem innerTry_eq_badType (env : FTEnv) (t d : String) (st : LoopSt)
    (data : UnpaywallData) (loc : OALocation) (u : String) (resp : DownloadResponse)
    (hU : env.unpaywall d = .ok data) (hB : best_oa_location data = some loc)
    (hP : pdf_url_of loc = some u) (hD : env.download u = .ok resp)
    (hC : occursIn (lowerStr resp.contentType) "pdf" = false) :
    innerTry env t d st
      = ⟨some (.valueError ("Not a PDF file (content-type: " ++ resp.contentType ++ ")")),
         [], some (itemFile t d), st.fs, [.unpaywall d, .download u]⟩ := by
  simp only [innerTry, hU, hB, hP, hD, hC, Bool.false_eq_true, if_false]

theorem innerTry_eq_convErr (env : FTEnv) (t d : String) (st : LoopSt)
    (data : UnpaywallData) (loc : OALocation) (u : String) (resp : DownloadResponse)
    (e : PyError)
    (hU : env.unpaywall d = .ok data) (hB : best_oa_location data = some loc)
    (hP : pdf_url_of loc = some u) (hD : env.download u = .ok resp)
    (hC : occursIn (lowerStr resp.contentType) "pdf" = true)
    (hM : env.toMarkdown resp.content = .error e) :
    innerTry env t d st
      = ⟨some e, [], some (itemFile t d), fsWrite st.fs (itemFile t d) resp.content,
         [.unpaywall d, .download u, .convert resp.content]⟩ := by
  simp only [innerTry, hU, hB, hP, hD, hC, if_true, hM]

theorem innerTry_eq_success (env : FTEnv) (t d : String) (st : LoopSt)
    (data : UnpaywallData) (loc : OALocation) (u : String) (resp : DownloadResponse)
    (md : String)
    (hU : env.unpaywall d = .ok data) (hB : best_oa_location data = some loc)
    (hP : pdf_url_of loc = some u) (hD : env.download u = .ok resp)
    (hC : occursIn (lowerStr resp.contentType) "pdf" = true)
    (hM : env.toMarkdown resp.content = .ok md) :
    innerTry env t d st
      = ⟨none,
         ["Open Access Source: " ++ host_type_label loc, "", "Markdown Content:", md],
         some (itemFile t d), fsWrite st.fs (itemFile t d) resp.content,
         [.unpaywall d, .download u, .convert resp.content]⟩ := by
  simp only [innerTry, hU, hB, hP, hD, hC, if_true, hM]

theorem H_innerTry_inv (env : FTEnv) (t d : String) (st : LoopSt) :
    (∃ tr, (innerTry env t d st).trace = Call.unpaywall d :: tr
        ∧ tr.any isFinditCall = false)
    ∧ ((innerTry env t d st).err = none →
        ∃ host md, (innerTry env t d st).lines
          = ["Open Access Source: " ++ host, "", "Markdown Content:", md])
    ∧ (((innerTry env t d st).filenameVar = st.filenameVar
          ∧ (innerTry env t d st).fs = st.fs)
       ∨ ((innerTry env t d st).filenameVar = some (itemFile t d)
          ∧ ((innerTry env t d st).fs = st.fs
             ∨ ∃ c, (innerTry env t d st).fs = fsWrite st.fs (itemFile t d) c))) := by
  cases hU : env.unpaywall d with
  | error e =>
    rw [innerTry_eq_apiErr env t d st e hU]
    exact ⟨⟨[], rfl, rfl⟩, by simp, Or.inl ⟨rfl, rfl⟩⟩
  | ok data =>
    cases hB : best_oa_location data with
    | none =>
      rw [innerTry_eq_noBest env t d st data hU hB]
      exact ⟨⟨[], rfl, rfl⟩, by simp, Or.inl ⟨rfl, rfl⟩⟩
    | some loc =>
      cases hP : pdf_url_of loc with
      | none =>
        rw [innerTry_eq_noUrl env t d st data loc hU hB hP]
        exact ⟨⟨[], rfl, rfl⟩, by simp, Or.inl ⟨rfl, rfl⟩⟩
      | some u =>
        cases hD : env.download u with
        | error e =>
          rw [innerTry_eq_dlErr env t d st data loc u e hU hB hP hD]
          exact ⟨⟨[.download u], rfl, rfl⟩, by simp, Or.inr ⟨rfl, Or.inl rfl⟩⟩
        | ok resp =>
          cases hC : occursIn (lowerStr resp.contentType) "pdf" with
          | false =>
            rw [innerTry_eq_badType env t d st data loc u resp hU hB hP hD hC]
            exact ⟨⟨[.download u], rfl, rfl⟩, by simp, Or.inr ⟨rfl, Or.inl rfl⟩⟩
          | true =>
            cases hM : env.toMarkdown resp.content with
            | error e =>
              rw [innerTry_eq_convErr env t d st data loc u resp e hU hB hP hD hC hM]
              exact ⟨⟨[.download u, .convert resp.content], rfl, rfl⟩, by simp,
                Or.inr ⟨rfl, Or.inr ⟨resp.content, rfl⟩⟩⟩
            | ok md =>
              rw [innerTry_eq_success env t d st data loc u resp md hU hB hP hD hC hM]
              exact ⟨⟨[.download u, .convert resp.content], rfl, rfl⟩,
                fun _ => ⟨host_type_label loc, md, rfl⟩,
                Or.inr ⟨rfl, Or.inr ⟨resp.content, rfl⟩⟩⟩

theorem H_ftItem_trace (env : FTEnv) (t d : String) (st : LoopSt) :
    (ftItem env t d st).trace = (innerTry env t d st).trace := by
  unfold ftItem ftAssemble
  cases (innerTry env t d st).filenameVar <;> rfl

/-- The two possible assembled shapes of an item, depending on whether the
`finally` block finds `filename` bound. -/
theorem H_ftItem_cases (env : FTEnv) (t d : String) (st : LoopSt) :
    ((innerTry env t d st).filenameVar = none
      ∧ ftItem env t d st
          = ⟨joinSep "\n" ["PDF Processing Results:", "DOI: " ++ d,
               "Error: " ++ errMsg (.unboundLocal "filename")],
             (innerTry env t d st).trace, ⟨none, (innerTry env t d st).fs⟩⟩)
    ∨ (∃ fn, (innerTry env t d st).filenameVar = some fn
      ∧ ftItem env t d st
          = ⟨joinSep "\n" (["PDF Processing Results:", "DOI: " ++ d]
               ++ handledLines (innerTry env t d st).err (innerTry env t d st).lines),
             (innerTry env t d st).trace,
             ⟨some fn, fsRemove (innerTry env t d st).fs fn⟩⟩) := by
  unfold ftItem ftAssemble
  cases hfv : (innerTry env t d st).filenameVar with
  | none => exact Or.inl ⟨rfl, rfl⟩
  | some fn => exact Or.inr ⟨fn, rfl, rfl⟩

theorem H_ftItem_frag (env : FTEnv) (t d : String) (st : LoopSt) :
    ∃ rest, (ftItem env t d st).fragment = headerFT d ++ rest
      ∧ ((∃ s, rest = "Error: " ++ s)
         ∨ ∃ host md, rest
             = "Open Access Source: " ++ host ++ "\n\nMarkdown Content:\n" ++ md) := by
  rcases H_ftItem_cases env t d st with ⟨hfv, heq⟩ | ⟨fn, hfv, heq⟩
  · exact ⟨"Error: " ++ errMsg (.unboundLocal "filename"),
      by rw [heq]; exact L_ft_split d _ [], Or.inl ⟨_, rfl⟩⟩
  · cases hE : (innerTry env t d st).err with
    | some e =>
      cases hH : isHTTPError e with
      | true =>
        refine ⟨"Error: Failed to retrieve or download PDF - " ++ errMsg e, ?_,
          Or.inl ⟨_, rfl⟩⟩
        rw [heq]
        simp only [handledLines, hE, hH, if_true]
        exact L_ft_split d _ []
      | false =>
        refine ⟨"Error: Failed to process PDF - " ++ errMsg e, ?_, Or.inl ⟨_, rfl⟩⟩
        rw [heq]
        simp only [handledLines, hE, hH, Bool.false_eq_true, if_false]
        exact L_ft_split d _ []
    | none =>
      obtain ⟨host, md, hl⟩ := (H_innerTry_inv env t d st).2.1 hE
      refine ⟨"Open Access Source: " ++ host ++ "\n\nMarkdown Content:\n" ++ md, ?_,
        Or.inr ⟨host, md, rfl⟩⟩
      rw [heq]
      simp only [handledLines, hE, hl, List.cons_append, List.nil_append]
      rw [L_ft_split, L_success_lines]

theorem L_any_filter_bne (fs : FS) (f : String) :
    (fs.filter (fun p => p.1 != f)).any (fun p => p.1 == f) = false := by
  induction fs with
  | nil => rfl
  | cons hd tl ih =>
    rw [List.filter_cons]
    cases h : hd.1 == f with
    | true => simp [bne, h, ih]
    | false => simp [bne, h, ih]

theorem L_any_filter_mono (fs : FS) (f k : String)
    (h : fs.any (fun p => p.1 == k) = false) :
    (fs.filter (fun p => p.1 != f)).any (fun p => p.1 == k) = false := by
  induction fs with
  | nil => rfl
  | cons hd tl ih =>
    rw [List.any_cons, Bool.or_eq_false_iff] at h
    rw [List.filter_cons]
    cases hf : hd.1 != f with
    | true => simp [List.any_cons, h.1, ih h.2]
    | false => simp [ih h.2]

theorem L_fsHas_remove_self (fs : FS) (f : String) :
    fsHas (fsRemove fs f) f = false :=
  L_any_filter_bne fs f

theorem L_fsHas_remove_mono (fs : FS) (f k : String) (h : fsHas fs k = false) :
    fsHas (fsRemove fs f) k = false :=
  L_any_filter_mono fs f k h

theorem H_ftItem_fs (env : FTEnv) (t d : String) (st : LoopSt)
    (h : fsHas st.fs (itemFile t d) = false) :
    fsHas (ftItem env t d st).st.fs (itemFile t d) = false := by
  rcases H_ftItem_cases env t d st with ⟨hfv, heq⟩ | ⟨fn, hfv, heq⟩
  · rcases (H_innerTry_inv env t d st).2.2 with ⟨_, hfs⟩ | ⟨hsome, _⟩
    · rw [heq]
      simpa [hfs] using h
    · rw [hfv] at hsome
      exact absurd hsome (by simp)
  · rcases (H_innerTry_inv env t d st).2.2 with ⟨hfv2, hfs⟩ | ⟨hsome, hfs⟩
    · rw [heq]
      simp only []
      rw [hfs]
      exact L_fsHas_remove_mono st.fs fn (itemFile t d) h
    · rw [hfv] at hsome
      obtain rfl : fn = itemFile t d := by injection hsome
      rw [heq]
      exact L_fsHas_remove_self _ _

theorem L_fsRemove_write_nil (f c : String) :
    fsRemove (fsWrite [] f c) f = [] := by
  simp [fsWrite, fsRemove, List.filter_cons]

theorem H_ftItem_fs_nil (env : FTEnv) (t d : String) (st : LoopSt)
    (h : st.fs = []) : (ftItem env t d st).st.fs = [] := by
  rcases H_ftItem_cases env t d st with ⟨hfv, heq⟩ | ⟨fn, hfv, heq⟩
  · rcases (H_innerTry_inv env t d st).2.2 with ⟨_, hfs⟩ | ⟨hsome, _⟩
    · rw [heq]
      simp only []
      rw [hfs, h]
    · rw [hfv] at hsome
      exact absurd hsome (by simp)
  · rcases (H_innerTry_inv env t d st).2.2 with ⟨hfv2, hfs⟩ | ⟨hsome, hfs⟩
    · rw [heq]
      simp only []
      rw [hfs, h]
      rfl
    · rw [hfv] at hsome
      obtain rfl : fn = itemFile t d := by injection hsome
      rcases hfs with hfs | ⟨c, hfs⟩
      · rw [heq]
        simp only []
        rw [hfs, h]
        rfl
      · rw [heq]
        simp only []
        rw [hfs, h]
        exact L_fsRemove_write_nil _ _

theorem H_ftLoop_forall2 (env : FTEnv) (t : String) (dois : List String) :
    ∀ st, List.Forall₂ (fun frag doi => ∃ rest, frag = headerFT doi ++ rest)
      (ftLoop env t st dois).1 dois := by
  induction dois with
  | nil => intro st; exact List.Forall₂.nil
  | cons d ds ih =>
    intro st
    refine List.Forall₂.cons ?_ (ih _)
    obtain ⟨rest, h, _⟩ := H_ftItem_frag env t d st
    exact ⟨rest, h⟩

theorem H_ftLoop_fs_nil (env : FTEnv) (t : String) (dois : List String) :
    ∀ st : LoopSt, st.fs = [] → ((ftLoop env t st dois).2).fs = [] := by
  induction dois with
  | nil => intro st h; exact h
  | cons d ds ih => intro st h; exact ih _ (H_ftItem_fs_nil env t d st h)

theorem H_gaItem_frag (env : ArtEnv) (d : String) :
    ∃ rest, (gaItem env d).1 = headerGA d ++ rest := by
  cases hR : env.doi2pmid d with
  | error e =>
    exact ⟨_, by
      simp only [gaItem, hR]
      exact L_ga_split d _ []⟩
  | ok po =>
    cases po with
    | none =>
      exact ⟨_, by
        simp only [gaItem, hR, truthy, Bool.false_eq_true, if_false]
        exact L_ga_split d _ []⟩
    | some pmid =>
      cases hT : pmid != "" with
      | false =>
        exact ⟨_, by
          simp only [gaItem, hR, truthy, hT, Bool.false_eq_true, if_false]
          exact L_ga_split d _ []⟩
      | true =>
        cases hA : env.article_by_pmid pmid with
        | error e =>
          exact ⟨_, by
            simp only [gaItem, hR, truthy, hT, if_true, hA]
            exact L_ga_split d _ _⟩
        | ok ao =>
          cases ao with
          | none =>
            exact ⟨_, by
              simp only [gaItem, hR, truthy, hT, if_true, hA]
              exact L_ga_split d _ _⟩
          | some a =>
            cases hF : env.findit pmid with
            | error e =>
              exact ⟨_, by
                simp only [gaItem, hR, truthy, hT, if_true, hA, hF,
                  List.cons_append, List.nil_append]
                exact L_ga_split d _ _⟩
            | ok fr =>
              exact ⟨_, by
                simp only [gaItem, hR, truthy, hT, if_true, hA, hF,
                  List.cons_append, List.nil_append]
                exact L_ga_split d _ _⟩

theorem H_ga_forall2 (env : ArtEnv) (dois : List String) :
    List.Forall₂ (fun frag doi => ∃ rest, frag = headerGA doi ++ rest)
      (gaFragments env dois) dois := by
  induction dois with
  | nil => exact List.Forall₂.nil
  | cons d ds ih => exact List.Forall₂.cons (H_gaItem_frag env d) ih

theorem H_gaItem_trace (env : ArtEnv) (d : String) :
    (gaItem env d).2 = [Call.doi2pmid d]
    ∨ ∃ p, (gaItem env d).2 = [Call.doi2pmid d, Call.fetchArticle p]
         ∨ (gaItem env d).2 = [Call.doi2pmid d, Call.fetchArticle p, Call.findit p] := by
  cases hR : env.doi2pmid d with
  | error e => left; simp only [gaItem, hR]
  | ok po =>
    cases po with
    | none =>
      left
      simp only [gaItem, hR, truthy, Bool.false_eq_true, if_false]
    | some pmid =>
      cases hT : pmid != "" with
      | false =>
        left
        simp only [gaItem, hR, truthy, hT, Bool.false_eq_true, if_false]
      | true =>
        cases hA : env.article_by_pmid pmid with
        | error e =>
          right
          exact ⟨pmid, Or.inl (by simp only [gaItem, hR, truthy, hT, if_true, hA])⟩
        | ok ao =>
          cases ao with
          | none =>
            right
            exact ⟨pmid, Or.inl (by simp only [gaItem, hR, truthy, hT, if_true, hA])⟩
          | some a =>
            cases hF : env.findit pmid with
            | error e =>
              right
              exact ⟨pmid, Or.inr (by simp only [gaItem, hR, truthy, hT, if_true, hA, hF])⟩
            | ok fr =>
              right
              exact ⟨pmid, Or.inr (by simp only [gaItem, hR, truthy, hT, if_true, hA, hF])⟩

theorem L_ft_report_eq (env : FTEnv) (t : String) (dois : List String) :
    get_full_text_markdown env t dois = .ok (ftReport env t dois) := rfl

theorem L_isEmpty_false {α : Type} (l : List α) (h : l ≠ []) :
    l.isEmpty = false := by
  cases l with
  | nil => exact absurd rfl h
  | cons a l => rfl

/-- C9: if the input identifier list is empty, each batch call returns its
fixed "nothing processed" sentinel message rather than the empty string
(lines 369-371 and 255-257). -/
theorem C9_empty_batch_sentinel (envF : FTEnv) (t : String) (envA : ArtEnv) :
    get_full_text_markdown envF t [] = .ok "No PDFs were processed successfully."
    ∧ get_articles envA [] = "No articles were processed successfully."
    ∧ ("No PDFs were processed successfully." : String) ≠ ""
    ∧ ("No articles were processed successfully." : String) ≠ "" :=
  ⟨rfl, rfl, by decide, by decide⟩

/-- C1: for every input list, each batch call yields exactly one fragment per
input identifier (witnessed by a pointwise correspondence: the i-th fragment
opens with the header naming the i-th identifier), the fragment count equals
the input count, and for a non-empty batch the report is the fragments
joined with the fixed multi-line separator. -/
theorem C1_one_fragment_per_identifier (envF : FTEnv) (envA : ArtEnv)
    (t : String) (dois : List String) :
    List.Forall₂ (fun frag doi => ∃ rest, frag = headerFT doi ++ rest)
      (ftFragments envF t dois) dois
    ∧ (ftFragments envF t dois).length = dois.length
    ∧ List.Forall₂ (fun frag doi => ∃ rest, frag = headerGA doi ++ rest)
      (gaFragments envA dois) dois
    ∧ (gaFragments envA dois).length = dois.length
    ∧ (dois ≠ [] →
        get_full_text_markdown envF t dois
          = .ok (joinSep SEPARATOR (ftFragments envF t dois))
        ∧ get_articles envA dois = joinSep SEPARATOR (gaFragments envA dois)) := by
  have hft : List.Forall₂ (fun frag doi => ∃ rest, frag = headerFT doi ++ rest)
      (ftFragments envF t dois) dois := H_ftLoop_forall2 envF t dois ⟨none, []⟩
  have hga := H_ga_forall2 envA dois
  refine ⟨hft, hft.length_eq, hga, hga.length_eq, fun hne => ⟨?_, ?_⟩⟩
  · have hne1 : ftFragments envF t dois ≠ [] := by
      intro h0
      apply hne
      have hl := hft.length_eq
      rw [h0] at hl
      exact List.eq_nil_of_length_eq_zero hl.symm
    rw [L_ft_report_eq]
    simp only [ftReport, L_isEmpty_false _ hne1, Bool.false_eq_true, if_false]
  · have hne2 : gaFragments envA dois ≠ [] := by
      intro h0
      apply hne
      have hl := hga.length_eq
      rw [h0] at hl
      exact List.eq_nil_of_length_eq_zero hl.symm
    simp only [get_articles, L_isEmpty_false _ hne2, Bool.false_eq_true, if_false]

theorem C1_witness :
    List.Forall₂ (fun frag doi => ∃ rest, frag = headerFT doi ++ rest)
      (ftFragments envHttpFail "/tmp/w1" ["10.1/a"]) ["10.1/a"]
    ∧ get_articles envResolveFail ["10.1/a"]
        = joinSep SEPARATOR (gaFragments envResolveFail ["10.1/a"]) :=
  ⟨(C1_one_fragment_per_identifier envHttpFail envResolveFail "/tmp/w1" ["10.1/a"]).1,
   ((C1_one_fragment_per_identifier envHttpFail envResolveFail "/tmp/w1"
       ["10.1/a"]).2.2.2.2 (by decide)).2⟩

/-- C2: the per-item file never survives the per-item step (whatever the
exit path, the item file is absent from the temporary directory when control
returns to the batch loop); after a whole batch the temporary directory is
empty; and the batch call returns its report in all cases — the `rmdir`
attempt of the outer `finally` (lines 362-367) cannot change the result,
its failure being caught and logged. -/
theorem C2_ephemeral_cleanup :
    (∀ (env : FTEnv) (t d : String) (st : LoopSt),
       fsHas st.fs (itemFile t d) = false →
       fsHas (ftItem env t d st).st.fs (itemFile t d) = false)
    ∧ (∀ (env : FTEnv) (t : String) (dois : List String),
       ((ftLoop env t ⟨none, []⟩ dois).2).fs = [])
    ∧ (∀ (env : FTEnv) (t : String) (dois : List String),
       get_full_text_markdown env t dois = .ok (ftReport env t dois)) :=
  ⟨H_ftItem_fs,
   fun env t dois => H_ftLoop_fs_nil env t dois ⟨none, []⟩ rfl,
   fun _ _ _ => rfl⟩

theorem C2_witness :
    fsHas (⟨none, [("/tmp/w2/other.pdf", "K")]⟩ : LoopSt).fs
        (itemFile "/tmp/w2" "10.1/x") = false
    ∧ fsHas (ftItem envGood "/tmp/w2" "10.1/x"
          ⟨none, [("/tmp/w2/other.pdf", "K")]⟩).st.fs
        (itemFile "/tmp/w2" "10.1/x") = false :=
  ⟨by decide,
   C2_ephemeral_cleanup.1 envGood "/tmp/w2" "10.1/x"
     ⟨none, [("/tmp/w2/other.pdf", "K")]⟩ (by decide)⟩

/-- C3: every stage-level failure is absorbed at the per-identifier
boundary: the batch call always returns a report (never an exception), and
every per-item fragment opens with the header naming its identifier and is
either an error fragment (an "Error: " line) or the success fragment.  A
non-iterable input has no counterpart in the embedding, where the input is
always a list; within it the batch call never fails. -/
theorem C3_per_identifier_error_isolation :
    (∀ (env : FTEnv) (t : String) (dois : List String),
       get_full_text_markdown env t dois = .ok (ftReport env t dois))
    ∧ (∀ (env : FTEnv) (t d : String) (st : LoopSt),
       ∃ rest, (ftItem env t d st).fragment = headerFT d ++ rest
         ∧ ((∃ s, rest = "Error: " ++ s)
            ∨ ∃ host md, rest
                = "Open Access Source: " ++ host ++ "\n\nMarkdown Content:\n" ++ md)) :=
  ⟨fun _ _ _ => rfl, H_ftItem_frag⟩

theorem H_firstDownload_eq (env : FTEnv) (t d : String) (st : LoopSt)
    (data : UnpaywallData) (loc : OALocation) (u : String)
    (hU : env.unpaywall d = .ok data) (hB : best_oa_location data = some loc)
    (hP : pdf_url_of loc = some u) :
    firstDownload (ftItem env t d st).trace = some u := by
  rw [H_ftItem_trace]
  cases hD : env.download u with
  | error e =>
    rw [innerTry_eq_dlErr env t d st data loc u e hU hB hP hD]
    rfl
  | ok resp =>
    cases hC : occursIn (lowerStr resp.contentType) "pdf" with
    | false =>
      rw [innerTry_eq_badType env t d st data loc u resp hU hB hP hD hC]
      rfl
    | true =>
      cases hM : env.toMarkdown resp.content with
      | error e =>
        rw [innerTry_eq_convErr env t d st data loc u resp e hU hB hP hD hC hM]
        rfl
      | ok md =>
        rw [innerTry_eq_success env t d st data loc u resp md hU hB hP hD hC hM]
        rfl

/-- C4: when the aggregator response has the open-access flag set, the URL
handed to the download step is exactly the one the selection policy of the
specification picks: the PDF URL of the first candidate exposing one, else
the generic URL of the first candidate (`spec_selected_url` transcribes the
words of the spec; lines 294-318 of the code realise it). -/
theorem C4_pdf_url_selection (env : FTEnv) (t d : String) (st : LoopSt)
    (data : UnpaywallData) (u : String)
    (hU : env.unpaywall d = .ok data) (hOA : data.is_oa = true)
    (hS : spec_selected_url data = some u) :
    firstDownload (ftItem env t d st).trace = some u := by
  cases hF : data.oa_locations.find? (fun l => truthy l.url_for_pdf) with
  | some l =>
    have hpdf : truthy l.url_for_pdf = true := by
      simpa using List.find?_some hF
    have hu : l.url_for_pdf = some u := by
      simpa only [spec_selected_url, hF] using hS
    have hB : best_oa_location data = some l := by
      simp only [best_oa_location, hOA, if_true, hF]
    have hP : pdf_url_of l = some u := by
      simp only [pdf_url_of, hpdf, if_true]
      exact hu
    exact H_firstDownload_eq env t d st data l u hU hB hP
  | none =>
    cases hL : data.oa_locations with
    | nil =>
      rw [spec_selected_url, hF, hL] at hS
      exact absurd hS (by simp)
    | cons l0 rest =>
      rw [hL] at hF
      have hnopdf : truthy l0.url_for_pdf = false := by
        have h1 := List.find?_eq_none.mp hF l0 (by simp)
        simpa using h1
      have hu : (if truthy l0.url then l0.url else none) = some u := by
        simpa only [spec_selected_url, hL, hF, List.head?_cons, Option.bind_some] using hS
      have hT : truthy l0.url = true := by
        cases hT0 : truthy l0.url with
        | true => rfl
        | false =>
          rw [hT0, if_neg (by simp)] at hu
          exact absurd hu (by simp)
      have hu2 : l0.url = some u := by
        rw [hT, if_pos rfl] at hu
        exact hu
      have hB : best_oa_location data = some l0 := by
        simp only [best_oa_location, hOA, if_true, hL, hF, List.head?_cons]
      have hP : pdf_url_of l0 = some u := by
        simp only [pdf_url_of, hnopdf, Bool.false_eq_true, if_false, hT, if_true]
        exact hu2
      exact H_firstDownload_eq env t d st data l0 u hU hB hP

theorem C4_witness :
    firstDownload (ftItem envTwoLoc "/tmp/w4" "10.1/x" ⟨none, []⟩).trace
      = some "http://pdf2" :=
  C4_pdf_url_selection envTwoLoc "/tmp/w4" "10.1/x" ⟨none, []⟩
    ⟨true, [⟨none, some "http://gen1", none⟩, ⟨some "http://pdf2", some "http://gen2", none⟩]⟩
    "http://pdf2" rfl rfl (by decide)

/-- C5 counterexample: with the aggregator reporting not-open-access for the
very first identifier of a batch, the not-found reason is NOT reported in
the fragment: the `finally` block reads the never-assigned `filename`
(line 348) and the resulting name-binding error replaces the report, so the
fragment carries the `UnboundLocalError` text and does not contain the
"No open access PDF available" reason the claim promises verbatim. -/
theorem C5_counterexample :
    (ftItem envNotOA "/tmp/c5" "10.1/q" ⟨none, []⟩).fragment
      = "PDF Processing Results:\nDOI: 10.1/q\nError: cannot access local variable filename where it is not associated with a value"
    ∧ occursIn (ftItem envNotOA "/tmp/c5" "10.1/q" ⟨none, []⟩).fragment
        "No open access PDF available" = false :=
  ⟨by decide, by decide⟩

/-- C5 (amended): when the aggregator reports not-open-access (or an empty
candidate collection) AND the batch has already bound the per-loop
`filename` variable (some earlier item reached the download stage), the
fragment reports the fixed generic not-found reason — the code never
extracts a reason string from the aggregator response — and that report is
distinct from the transport-failure report for every transport error
message.  Without the binding, the name-binding error masks the reason
(see the counterexample and C10). -/
theorem C5_not_found_outcome (env : FTEnv) (t d : String) (st : LoopSt)
    (fn : String) (data : UnpaywallData)
    (hfv : st.filenameVar = some fn)
    (hU : env.unpaywall d = .ok data)
    (h : data.is_oa = false ∨ data.oa_locations = []) :
    (ftItem env t d st).fragment
      = headerFT d ++ "Error: Failed to process PDF - No open access PDF available"
    ∧ ∀ m, ("Error: Failed to process PDF - No open access PDF available" : String)
        ≠ "Error: Failed to retrieve or download PDF - " ++ m := by
  have hB : best_oa_location data = none := by
    rcases h with h | h
    · simp [best_oa_location, h]
    · simp [best_oa_location, h]
  have hI := innerTry_eq_noBest env t d st data hU hB
  constructor
  · unfold ftItem ftAssemble
    rw [hI]
    simp only [hfv, handledLines, isHTTPError, Bool.false_eq_true, if_false,
      errMsg, List.cons_append, List.nil_append]
    exact L_ft_split d _ []
  · intro m h2
    have hd := congrArg (fun s => s.data[17]?) h2
    simp only [String.data_append] at hd
    rw [List.getElem?_append_left (by decide)] at hd
    exact absurd hd (by decide)

theorem C5_witness :
    (⟨some "/tmp/w5/prev.pdf", []⟩ : LoopSt).filenameVar = some "/tmp/w5/prev.pdf"
    ∧ (ftItem envNotOA "/tmp/w5" "10.1/q" ⟨some "/tmp/w5/prev.pdf", []⟩).fragment
      = headerFT "10.1/q" ++ "Error: Failed to process PDF - No open access PDF available" :=
  ⟨rfl,
   (C5_not_found_outcome envNotOA "/tmp/w5" "10.1/q" ⟨some "/tmp/w5/prev.pdf", []⟩
      "/tmp/w5/prev.pdf" ⟨false, []⟩ rfl rfl (Or.inl rfl)).1⟩

/-- C6: a successful download whose declared content type does not contain
"pdf" (case-insensitively) ends the item with the content-type error
carrying the observed content type; nothing is downloaded further, no
conversion call is made (the trace stops at the download), and no file is
written (an empty temporary directory stays empty). -/
theorem C6_content_type_validation (env : FTEnv) (t d : String) (st : LoopSt)
    (data : UnpaywallData) (loc : OALocation) (u : String) (resp : DownloadResponse)
    (hU : env.unpaywall d = .ok data) (hB : best_oa_location data = some loc)
    (hP : pdf_url_of loc = some u) (hD : env.download u = .ok resp)
    (hC : occursIn (lowerStr resp.contentType) "pdf" = false)
    (hfs : st.fs = []) :
    (ftItem env t d st).fragment
      = headerFT d ++ ("Error: Failed to process PDF - Not a PDF file (content-type: "
          ++ resp.contentType ++ ")")
    ∧ (ftItem env t d st).trace = [Call.unpaywall d, Call.download u]
    ∧ (ftItem env t d st).st.fs = [] := by
  have hI := innerTry_eq_badType env t d st data loc u resp hU hB hP hD hC
  refine ⟨?_, ?_, ?_⟩
  · unfold ftItem ftAssemble
    rw [hI]
    simp only [handledLines, isHTTPError, Bool.false_eq_true, if_false, errMsg,
      List.cons_append, List.nil_append]
    exact L_ft_split d _ []
  · rw [H_ftItem_trace, hI]
  · unfold ftItem ftAssemble
    rw [hI]
    simp only []
    rw [hfs]
    rfl

theorem C6_witness :
    (ftItem envHtml "/tmp/w6" "10.1/x" ⟨none, []⟩).fragment
      = headerFT "10.1/x"
          ++ "Error: Failed to process PDF - Not a PDF file (content-type: text/html)"
    ∧ (ftItem envHtml "/tmp/w6" "10.1/x" ⟨none, []⟩).trace
      = [Call.unpaywall "10.1/x", Call.download "http://pdf"]
    ∧ (ftItem envHtml "/tmp/w6" "10.1/x" ⟨none, []⟩).st.fs = [] :=
  C6_content_type_validation envHtml "/tmp/w6" "10.1/x" ⟨none, []⟩
    ⟨true, [⟨some "http://pdf", some "http://gen", some "publisher"⟩]⟩
    ⟨some "http://pdf", some "http://gen", some "publisher"⟩
    "http://pdf" ⟨"text/html", "HTML"⟩
    rfl (by decide) (by decide) rfl (by decide) rfl

/-- C7 counterexample: in the full-text pipeline the first external call an
item makes is the open-access aggregator query — the record-aware primary
finder is never consulted there (no `findit` call ever appears in the
trace), even on a fully successful item; and the metadata path
(`get_articles`), whose primary finder here yields nothing, never falls
back to the aggregator (no `unpaywall` call in its trace).  This refutes
the claimed two-stage primary-then-aggregator policy for each pipeline. -/
theorem C7_counterexample :
    (ftItem envGood "/tmp/c7" "10.1/x" ⟨none, []⟩).trace
      = [Call.unpaywall "10.1/x", Call.download "http://pdf", Call.convert "BYTES"]
    ∧ (ftItem envGood "/tmp/c7" "10.1/x" ⟨none, []⟩).trace.any isFinditCall = false
    ∧ (gaItem envArtNoUrl "10.1/x").2
      = [Call.doi2pmid "10.1/x", Call.fetchArticle "12345", Call.findit "12345"]
    ∧ (gaItem envArtNoUrl "10.1/x").2.any isUnpaywallCall = false :=
  ⟨by decide, by decide, by decide, by decide⟩

/-- C7 (amended): the two locator stages live in different tools and are
never chained.  In `get_full_text_markdown` every item queries the
aggregator, keyed by the original external identifier, as its first
external call, and never queries the primary finder.  In `get_articles` the
aggregator is never queried; the primary finder is queried exactly when
resolution and metadata both succeeded (the trace is one of the three
prefixes of resolve-fetch-find). -/
theorem C7_locator_order (envF : FTEnv) (t d : String) (st : LoopSt)
    (envA : ArtEnv) (d2 : String) :
    (∃ tr, (ftItem envF t d st).trace = Call.unpaywall d :: tr
        ∧ tr.any isFinditCall = false)
    ∧ (gaItem envA d2).2.any isUnpaywallCall = false
    ∧ ((gaItem envA d2).2 = [Call.doi2pmid d2]
       ∨ ∃ p, (gaItem envA d2).2 = [Call.doi2pmid d2, Call.fetchArticle p]
            ∨ (gaItem envA d2).2
                = [Call.doi2pmid d2, Call.fetchArticle p, Call.findit p]) := by
  refine ⟨?_, ?_, H_gaItem_trace envA d2⟩
  · obtain ⟨tr, htr, hf⟩ := (H_innerTry_inv envF t d st).1
    exact ⟨tr, by rw [H_ftItem_trace, htr], hf⟩
  · rcases H_gaItem_trace envA d2 with h | ⟨p, h | h⟩ <;>
      simp [h, isUnpaywallCall]

/-- C8: when resolution fails for an identifier — the mapping service raises,
or returns a falsy result — the fragment for it is exactly the three-line
resolution-error fragment (so it carries no metadata, abstract or full-text
content), the only external call made for it is the single resolution call
(no retry), and the batch continues with the remaining identifiers
unchanged. -/
theorem C8_resolution_failure :
    (∀ (env : ArtEnv) (d : String) (ds : List String) (e : PyError),
       env.doi2pmid d = .error e →
       gaFragments env (d :: ds)
         = (headerGA d ++ ("Error: Could not retrieve PMID - " ++ errMsg e))
             :: gaFragments env ds
       ∧ (gaItem env d).2 = [Call.doi2pmid d])
    ∧ (∀ (env : ArtEnv) (d : String) (ds : List String),
       env.doi2pmid d = .ok none →
       gaFragments env (d :: ds)
         = (headerGA d ++ "Error: Could not retrieve PMID - Could not convert DOI to PMID")
             :: gaFragments env ds
       ∧ (gaItem env d).2 = [Call.doi2pmid d]) := by
  constructor
  · intro env d ds e h
    constructor
    · show (gaItem env d).1 :: gaFragments env ds = _
      rw [show (gaItem env d).1
            = headerGA d ++ ("Error: Could not retrieve PMID - " ++ errMsg e) from by
          simp only [gaItem, h]
          exact L_ga_split d _ []]
    · simp only [gaItem, h]
  · intro env d ds h
    constructor
    · show (gaItem env d).1 :: gaFragments env ds = _
      rw [show (gaItem env d).1
            = headerGA d ++ "Error: Could not retrieve PMID - Could not convert DOI to PMID" from by
          simp only [gaItem, h, truthy, Bool.false_eq_true, if_false]
          exact L_ga_split d _ []]
    · simp only [gaItem, h, truthy, Bool.false_eq_true, if_false]

theorem C8_witness :
    gaFragments envResolveFail ["10.1/bad", "10.1/next"]
      = (headerGA "10.1/bad" ++ ("Error: Could not retrieve PMID - " ++ errMsg (.otherError "no pmid")))
          :: gaFragments envResolveFail ["10.1/next"]
    ∧ (gaItem envResolveFail "10.1/bad").2 = [Call.doi2pmid "10.1/bad"] :=
  C8_resolution_failure.1 envResolveFail "10.1/bad" ["10.1/next"]
    (.otherError "no pmid") rfl

set_option maxRecDepth 4000 in
/-- C10: a batch whose items fail before the per-item filename is assigned
(here the aggregator request raises a transport error for both identifiers)
exhibits the name-binding slip: the `finally` block reads the unassigned
`filename` local, and the `UnboundLocalError` it raises replaces the
original transport error in each fragment — the report carries the
name-binding message and not the underlying "boom" — while the batch still
yields exactly one fragment per identifier and continues past the first
failure. -/
theorem C10_unbound_filename_masks_error :
    ftFragments envHttpFail "/tmp/c10" ["10.1/aaa", "10.1/bbb"]
      = ["PDF Processing Results:\nDOI: 10.1/aaa\nError: cannot access local variable filename where it is not associated with a value",
         "PDF Processing Results:\nDOI: 10.1/bbb\nError: cannot access local variable filename where it is not associated with a value"]
    ∧ occursIn (joinSep SEPARATOR (ftFragments envHttpFail "/tmp/c10" ["10.1/aaa", "10.1/bbb"]))
        "boom" = false :=
  ⟨by decide, by decide⟩
